import Mathlib

/-!
Shallow embedding of the ONNC lowering and pass-dispatch core:

* `src/include/onnc/IR/Compute/Attributes.h` — the Attribute model
  (`Attribute`, `ScalarAttribute`, `VectorAttribute`);
* `src/lib/Transforms/TensorSel/AbsLower.cpp` — the `AbsLower` rule
  (`isMe`, `activate`);
* `src/unnamed/part_002` — `Statistics` counters and
  `UpdateCtablePass::runOnGraphs`.

Entities used by those translation units but declared elsewhere in the
repository (the `ComputeGraph`, `Lower.h`'s match levels, `Pass::ReturnType`,
the `StatisticsGroup` entry contract, the backend visitor) are modelled from
the specification and marked as such in their doc comments.
-/

namespace Onnc

/-- Attribute kinds, the `Attribute::Type` enumeration of Attributes.h:
ten kinds, scalar and sequence variants over float, integer, string,
tensor and sub-graph. -/
inductive AttrType
  | kFloat
  | kInteger
  | kString
  | kTensor
  | kGraph
  | kFloatVec
  | kIntegerVec
  | kStringVec
  | kTensorVec
  | kGraphVec
  deriving DecidableEq, Repr

/-- The base `Attribute` class of Attributes.h: stores only the kind tag
`m_Kind`. -/
structure Attribute where
  m_Kind : AttrType
  deriving DecidableEq, Repr

/-- `Attribute::kind() const` — returns `m_Kind`. -/
def Attribute.kind (a : Attribute) : AttrType := a.m_Kind

/-- `Attribute::Attribute(Type pKind)` — constructs with the given kind. -/
def Attribute.ctor (pKind : AttrType) : Attribute := { m_Kind := pKind }

/-- `Attribute::Attribute(const Attribute& pCopy)` — copy construction takes
`pCopy.kind()`. -/
def Attribute.copyCtor (pCopy : Attribute) : Attribute := { m_Kind := pCopy.kind }

/-- `Attribute::operator=(const Attribute& pCopy)` — the assignment writes
`m_Kind = pCopy.kind()` into the target. -/
def Attribute.assign (self pCopy : Attribute) : Attribute :=
  { self with m_Kind := pCopy.kind }

/-- `ScalarAttribute<ValueType, Kind>` of Attributes.h: an `Attribute`
subobject plus one payload `m_Value`.  The `Kind` template argument appears
as the constructor parameter of `ScalarAttribute.ctor`. -/
structure ScalarAttribute (ValueType : Type) where
  toAttribute : Attribute
  m_Value : ValueType

/-- `ScalarAttribute(const ValueType& pValue)` for template kind `Kind` —
initialises the base with `Kind` and the payload with `pValue`. -/
def ScalarAttribute.ctor (Kind : AttrType) (pValue : ValueType) :
    ScalarAttribute ValueType :=
  { toAttribute := Attribute.ctor Kind, m_Value := pValue }

/-- `ScalarAttribute::value()` — the payload. -/
def ScalarAttribute.value (a : ScalarAttribute ValueType) : ValueType := a.m_Value

/-- `ScalarAttribute::kind()` — inherited from `Attribute`. -/
def ScalarAttribute.kind (a : ScalarAttribute ValueType) : AttrType :=
  a.toAttribute.kind

/-- `ScalarAttribute(const ScalarAttribute& pCopy)` — base copy construction
plus `m_Value(pCopy.value())`. -/
def ScalarAttribute.copyCtor (pCopy : ScalarAttribute ValueType) :
    ScalarAttribute ValueType :=
  { toAttribute := Attribute.copyCtor pCopy.toAttribute, m_Value := pCopy.value }

/-- `ScalarAttribute::operator=` — calls `Attribute::operator=` then copies
`m_Value = pCopy.value()`. -/
def ScalarAttribute.assign (self pCopy : ScalarAttribute ValueType) :
    ScalarAttribute ValueType :=
  { toAttribute := Attribute.assign self.toAttribute pCopy.toAttribute
    m_Value := pCopy.value }

/-- `ScalarAttribute::setValue(const ValueType&)` — replaces the payload. -/
def ScalarAttribute.setValue (self : ScalarAttribute ValueType)
    (pValue : ValueType) : ScalarAttribute ValueType :=
  { self with m_Value := pValue }

/-- `VectorAttribute<ValueType, Kind>` of Attributes.h: an `Attribute`
subobject plus an ordered payload `m_Vector`. -/
structure VectorAttribute (ValueType : Type) where
  toAttribute : Attribute
  m_Vector : List ValueType

/-- `VectorAttribute(const VectorType& pVector)` for template kind `Kind`. -/
def VectorAttribute.ctor (Kind : AttrType) (pVector : List ValueType) :
    VectorAttribute ValueType :=
  { toAttribute := Attribute.ctor Kind, m_Vector := pVector }

/-- `VectorAttribute::vector()` — the payload. -/
def VectorAttribute.vector (a : VectorAttribute ValueType) : List ValueType :=
  a.m_Vector

/-- `VectorAttribute::kind()` — inherited from `Attribute`. -/
def VectorAttribute.kind (a : VectorAttribute ValueType) : AttrType :=
  a.toAttribute.kind

/-- `VectorAttribute(const VectorAttribute& pCopy)` — base copy construction
plus `m_Vector(pCopy.vector())`. -/
def VectorAttribute.copyCtor (pCopy : VectorAttribute ValueType) :
    VectorAttribute ValueType :=
  { toAttribute := Attribute.copyCtor pCopy.toAttribute, m_Vector := pCopy.vector }

/-- `VectorAttribute::operator=` — calls `Attribute::operator=` then copies
`m_Vector = pCopy.vector()`. -/
def VectorAttribute.assign (self pCopy : VectorAttribute ValueType) :
    VectorAttribute ValueType :=
  { toAttribute := Attribute.assign self.toAttribute pCopy.toAttribute
    m_Vector := pCopy.vector }

/-- Modelled from the spec: the element type of a tensor Value ("named,
typed, shaped" data-flow edges); the Value/Tensor header is not among the
sources, and only the float32/int32 distinction is exercised by the spec. -/
inductive ElemType
  | float32
  | int32
  deriving DecidableEq, Repr

/-- Modelled from the spec: a Value of the Compute Graph — "has a unique
name (unique within one Compute Graph), an element type, and a shape".
The shape plays no role in the claims and is omitted. -/
structure CValue where
  name : String
  elemType : ElemType
  deriving DecidableEq, Repr

/-- Modelled from the spec: an IR node (`ComputeOperator`) — "holds an
ordered list of input Values, an ordered list of output Values, and zero or
more named Attributes".  Per the design notes, nodes hold non-owning
references to Values resolved through the graph's name table, so inputs and
outputs are recorded as value names. -/
structure ComputeOperator where
  kind : String
  inputs : List String
  outputs : List String
  attrs : List (String × Attribute)
  deriving DecidableEq, Repr

/-- Modelled from the spec: the Compute Graph — "owns the node list and the
value table for one compiled unit". -/
structure ComputeGraph where
  nodes : List ComputeOperator
  values : List CValue
  deriving DecidableEq, Repr

/-- Modelled from the spec: `ComputeGraph::getValue(name)` — resolves a
Value by name in the graph's value table. -/
def ComputeGraph.getValue (g : ComputeGraph) (name : String) : Option CValue :=
  g.values.find? (fun v => v.name == name)

/-- A Value of the source (interchange-format) graph, as used by
AbsLower.cpp: `::onnx::Value` exposes `has_unique_name()` and
`uniqueName()`. -/
structure XValue where
  m_UniqueName : String
  m_HasUniqueName : Bool
  deriving DecidableEq, Repr

/-- `::onnx::Value::uniqueName()`. -/
def XValue.uniqueName (v : XValue) : String := v.m_UniqueName

/-- `::onnx::Value::has_unique_name()`. -/
def XValue.has_unique_name (v : XValue) : Bool := v.m_HasUniqueName

/-- A node of the source graph, as used by AbsLower.cpp: `::onnx::Node`
exposes `kind()`, `inputs()` and `outputs()`.  The kind symbol is modelled
as its string. -/
structure XNode where
  kind : String
  inputs : List XValue
  outputs : List XValue
  deriving DecidableEq, Repr

/-- Modelled from the spec: the match-level constant for "not my node" from
`Lower.h` (not among the sources); the spec describes an ordered
enumeration {NotMe, StandardMatch, CustomMatch, ...} used as a priority
signal, with NotMe lowest. -/
def kNotMe : Int := 0

/-- Modelled from the spec: the standard-lowering match level from
`Lower.h`; ordered strictly above `kNotMe`. -/
def kStdLower : Int := 1

/-- `AbsLower::isMe(const ::onnx::Node&)` from AbsLower.cpp lines 25-30:
returns `kStdLower` when the node's kind symbol is "Abs", else `kNotMe`. -/
def AbsLower.isMe (pNode : XNode) : Int :=
  if pNode.kind = "Abs" then kStdLower else kNotMe

/-- `AbsLower::activate(ComputeGraph&, ::onnx::Node&)` from AbsLower.cpp
lines 32-63.  The C++ mutates the graph and returns a `ComputeOperator*`;
here it returns the resulting graph paired with the returned node
(`none` for `nullptr`).  Each `return nullptr` of the C++ happens before
any mutation, so the failing branches return the graph unchanged; the
success path runs `pGraph.addOperator<onnc::Abs>()` (append a fresh `Abs`
node, which carries no attributes) and then binds each of the source
node's input and output unique names to the graph's Values via
`op->addInput(*pGraph.getValue<onnc::Tensor>(...))` and `op->addOutput`. -/
def AbsLower.activate (pGraph : ComputeGraph) (pNode : XNode) :
    ComputeGraph × Option ComputeOperator :=
  if pNode.inputs.length ≠ 1 then (pGraph, none)
  else if pNode.inputs.any (fun xv => !xv.has_unique_name) then (pGraph, none)
  else if pNode.outputs.length ≠ 1 then (pGraph, none)
  else if pNode.outputs.any (fun xv => !xv.has_unique_name) then (pGraph, none)
  else
    let op : ComputeOperator :=
      { kind := "Abs"
        inputs := pNode.inputs.map XValue.uniqueName
        outputs := pNode.outputs.map XValue.uniqueName
        attrs := [] }
    ({ pGraph with nodes := pGraph.nodes ++ [op] }, some op)

/-- Modelled from the spec: the Lowering Dispatcher of §4.4, restricted to
one registered rule (`AbsLower`) and a single-node source graph: probe the
rule with `isMe`; if it answers better than `kNotMe`, run `activate`;
lowering fails (`none`) if no rule matches or `activate` returns null. -/
def lowerSingleNode (g : ComputeGraph) (n : XNode) : Option ComputeGraph :=
  if AbsLower.isMe n > kNotMe then
    match AbsLower.activate g n with
    | (g2, some _) => some g2
    | (_, none) => none
  else none

/-- Modelled from the spec: `Pass::ReturnType`, the "tri-state result:
{NoChange, GraphChanged, Error}" of a pass run (`Pass.h` is not among the
sources); the source of part_002 uses the constant `Pass::kModuleChanged`. -/
inductive PassReturn
  | kModuleNoChanged
  | kModuleChanged
  | kPassFailed
  deriving DecidableEq, Repr

/-- Modelled from the spec: a backend Visitor — "a single interface with one
method per concrete node kind".  The per-kind dispatch is represented by
indexing the visit action with the node's kind symbol; the visitor may
carry and update backend state of type `σ` (in the source, the ctable held
by the `BM1880Backend`). -/
structure ComputeVisitor (σ : Type) where
  visit : String → ComputeOperator → σ → σ

/-- Modelled from the spec: `ComputeOperator::accept(visitor)` — the single
polymorphic operation the pass invokes per node; the node's concrete kind
determines which visitor method runs. -/
def ComputeOperator.accept (op : ComputeOperator) (v : ComputeVisitor σ)
    (s : σ) : σ :=
  v.visit op.kind op s

/-- The node loop of `UpdateCtablePass::runOnGraphs` (part_002 lines
316-319): walk the node sequence from `begin()` to `end()` and call
`node->accept(visitor)` on each.  Besides the final visitor state it
returns the trace of nodes on which `accept` was invoked, in invocation
order. -/
def acceptAll (v : ComputeVisitor σ) :
    List ComputeOperator → σ → σ × List ComputeOperator
  | [], s => (s, [])
  | op :: rest, s =>
    let s2 := op.accept v s
    let r := acceptAll v rest s2
    (r.1, op :: r.2)

/-- `UpdateCtablePass::runOnGraphs(xGraph&, ComputeGraph&)` from part_002
lines 312-321: construct an `UpdateVisitor`, call `accept` on every node of
the Compute Graph from `begin()` to `end()`, and `return
Pass::kModuleChanged`.  The visitor construction is abstracted as the
argument `v`; the result carries the final visitor state, the trace of
accepted nodes, and the returned `Pass::ReturnType`. -/
def UpdateCtablePass.runOnGraphs (v : ComputeVisitor σ) (pCG : ComputeGraph)
    (s : σ) : (σ × List ComputeOperator) × PassReturn :=
  (acceptAll v pCG.nodes s, PassReturn.kModuleChanged)

/-- A visitor whose every method leaves the backend state untouched. -/
def idVisitor : ComputeVisitor Unit :=
  { visit := fun _ _ s => s }

/-- Modelled from the spec: `StatisticsGroup::hasEntry(name)` — the
"read/write-by-name contract" of the statistics store (`StatisticsGroup.h`
is not among the sources). -/
def hasEntry (g : List (String × α)) (name : String) : Bool :=
  g.any (fun e => e.1 == name)

/-- Modelled from the spec: `StatisticsGroup::writeEntry(name, v)` — writes
`v` under `name`, replacing an existing entry or appending a new one. -/
def writeEntry (g : List (String × α)) (name : String) (v : α) :
    List (String × α) :=
  if hasEntry g name then
    g.map (fun e => if e.1 == name then (e.1, v) else e)
  else
    g ++ [(name, v)]

/-- Modelled from the spec: `StatisticsGroup::readEntry(name, default)` —
reads the entry under `name`, or the default when absent. -/
def readEntry (g : List (String × α)) (name : String) (dflt : α) : α :=
  match g.find? (fun e => e.1 == name) with
  | some e => e.2
  | none => dflt

/-- Modelled from the spec: the global statistics store reached through
`global::stats()`, restricted to the two groups the counter interface of
part_002 touches: the "Counter" group (name to integer value) and the
"Counter_Desc" group (name to description). -/
structure StatStore where
  counter : List (String × Int)
  counterDesc : List (String × String)
  deriving DecidableEq, Repr

/-- `Statistics::addCounter(StringRef, StringRef)` from part_002 lines
214-222: if the "Counter" group already has an entry under `pName`, return
false; otherwise write 0 under `pName` into "Counter", write `pDesc` under
`pName` into "Counter_Desc", and return true.  The store is passed and
returned explicitly. -/
def Statistics.addCounter (st : StatStore) (pName pDesc : String) :
    StatStore × Bool :=
  if hasEntry st.counter pName then (st, false)
  else
    ({ counter := writeEntry st.counter pName 0
       counterDesc := writeEntry st.counterDesc pName pDesc }, true)

/-- `Statistics::increaseCounter(StringRef, unsigned)` from part_002 lines
224-232: if the "Counter" group has no entry under `pName`, return false;
otherwise write `readEntry(pName, 0) + incNumber` back and return true. -/
def Statistics.increaseCounter (st : StatStore) (pName : String)
    (incNumber : Nat) : StatStore × Bool :=
  if !(hasEntry st.counter pName) then (st, false)
  else
    let entry_value : Int := readEntry st.counter pName 0 + (incNumber : Int)
    ({ st with counter := writeEntry st.counter pName entry_value }, true)

/-- `Statistics::decreaseCounter(StringRef, unsigned)` from part_002 lines
234-242: if the "Counter" group has no entry under `pName`, return false;
otherwise write `readEntry(pName, 0) - decNumber` back and return true. -/
def Statistics.decreaseCounter (st : StatStore) (pName : String)
    (decNumber : Nat) : StatStore × Bool :=
  if !(hasEntry st.counter pName) then (st, false)
  else
    let entry_value : Int := readEntry st.counter pName 0 - (decNumber : Int)
    ({ st with counter := writeEntry st.counter pName entry_value }, true)

/-! ## Helper lemmas -/

/-- Writing an entry makes it present. -/
theorem hasEntry_writeEntry_self (g : List (String × α)) (n : String) (v : α) :
    hasEntry (writeEntry g n v) n = true := by
  unfold writeEntry
  cases h : hasEntry g n
  · simp [hasEntry]
  · simp only [if_true]
    unfold hasEntry at h ⊢
    rw [List.any_map]
    have hfun : ((fun e => e.1 == n) ∘ fun (e : String × α) =>
        if e.1 == n then (e.1, v) else e) = fun (e : String × α) => e.1 == n := by
      funext e
      by_cases he : e.1 = n <;> simp [he]
    rw [hfun]
    exact h

/-- In a list with some entry under `n`, replacing every entry under `n`
by `(n, v)` makes the first hit of `find?` be `(n, v)`. -/
theorem find_write_map (g : List (String × α)) (n : String) (v : α)
    (h : hasEntry g n = true) :
    (g.map (fun e => if e.1 == n then (e.1, v) else e)).find?
        (fun e => e.1 == n) = some (n, v) := by
  induction g with
  | nil => simp [hasEntry] at h
  | cons e rest ih =>
    unfold hasEntry at h ih
    simp only [List.any_cons, Bool.or_eq_true] at h
    cases he : (e.1 == n) with
    | true =>
      have he2 : e.1 = n := by simpa using he
      simp [List.find?, he, he2]
    | false =>
      have h2 : rest.any (fun x => x.1 == n) = true := by
        rcases h with h1 | h2
        · rw [he] at h1; cases h1
        · exact h2
      simpa [List.find?, he] using ih h2

/-- In a list with no entry under `n`, appending `(n, v)` makes `find?`
return `(n, v)`. -/
theorem find_append_single (g : List (String × α)) (n : String) (v : α)
    (h : hasEntry g n = false) :
    (g ++ [(n, v)]).find? (fun e => e.1 == n) = some (n, v) := by
  induction g with
  | nil => simp [List.find?]
  | cons e rest ih =>
    unfold hasEntry at h ih
    simp only [List.any_cons, Bool.or_eq_false_iff] at h
    simpa [List.find?, h.1] using ih h.2

/-- Reading back an entry just written returns the written value. -/
theorem readEntry_writeEntry_self (g : List (String × α)) (n : String)
    (v dflt : α) : readEntry (writeEntry g n v) n dflt = v := by
  unfold writeEntry readEntry
  cases h : hasEntry g n
  · rw [if_neg Bool.false_ne_true, find_append_single g n v h]
  · rw [if_pos rfl, find_write_map g n v h]

/-- A Boolean `any` over negated uniqueness is the existence of a
non-unique name. -/
theorem any_not_unique_iff (l : List XValue) :
    (l.any (fun xv => !xv.has_unique_name) = true) ↔
      ∃ xv ∈ l, xv.has_unique_name = false := by
  simp [List.any_eq_true, Bool.not_eq_true']

/-- The trace of the accept loop is exactly the node list it was given. -/
theorem acceptAll_trace (v : ComputeVisitor σ) (l : List ComputeOperator)
    (s : σ) : (acceptAll v l s).2 = l := by
  induction l generalizing s with
  | nil => rfl
  | cons op rest ih => simp [acceptAll, ih]

/-! ## Claim theorems -/

/-- C4: `AbsLower::isMe` returns the standard match level `kStdLower` when
the probed source node's operator symbol is "Abs", and `kNotMe` for every
other symbol.  (The call is modelled as a pure function of the node, which
is exactly the C++ `const` method with a `const` argument: it can mutate
neither the rule nor the node.) -/
theorem absLower_isMe_matches_abs_only (n : XNode) :
    (n.kind = "Abs" → AbsLower.isMe n = kStdLower) ∧
    (n.kind ≠ "Abs" → AbsLower.isMe n = kNotMe) := by
  unfold AbsLower.isMe
  constructor
  · intro h; simp [h]
  · intro h; simp [h]

/-- Witness for C4 at the concrete nodes with kinds "Abs" and "Neg". -/
theorem absLower_isMe_matches_abs_only_witness :
    AbsLower.isMe { kind := "Abs", inputs := [], outputs := [] } = kStdLower ∧
    AbsLower.isMe { kind := "Neg", inputs := [], outputs := [] } = kNotMe :=
  ⟨(absLower_isMe_matches_abs_only _).1 rfl,
   (absLower_isMe_matches_abs_only _).2 (by decide)⟩

/-- C5 counterexample: the claim says every operation after construction
leaves `kind()` equal to the kind supplied at construction, but
`Attribute::operator=` writes `m_Kind = pCopy.kind()`: an attribute
constructed with kind `kFloat`, after copy assignment from a `kString`
attribute, reports kind `kString`. -/
theorem attribute_assign_changes_kind_cex :
    (Attribute.assign (Attribute.ctor AttrType.kFloat)
        (Attribute.ctor AttrType.kString)).kind ≠ AttrType.kFloat := by
  decide

/-- C5 amended: construction stores the supplied kind, and copy assignment
replaces the target's kind by the source's kind — so the kind is preserved
exactly when source and target already agree on it (as in every assignment
between same-instantiated `ScalarAttribute`/`VectorAttribute` objects). -/
theorem attribute_assign_kind_follows_source (k : AttrType) (a b : Attribute) :
    (Attribute.ctor k).kind = k ∧
    (Attribute.assign a b).kind = b.kind ∧
    (a.kind = b.kind → (Attribute.assign a b).kind = a.kind) :=
  ⟨rfl, rfl, fun h => h.symm⟩

/-- Witness for C5's amended claim at concrete attributes, with the
same-kind hypothesis discharged. -/
theorem attribute_assign_kind_follows_source_witness :
    (Attribute.ctor AttrType.kInteger).kind = AttrType.kInteger ∧
    (Attribute.assign (Attribute.ctor AttrType.kFloat)
        (Attribute.ctor AttrType.kFloat)).kind
      = (Attribute.ctor AttrType.kFloat).kind ∧
    (Attribute.assign (Attribute.ctor AttrType.kFloat)
        (Attribute.ctor AttrType.kFloat)).kind
      = (Attribute.ctor AttrType.kFloat).kind :=
  ⟨(attribute_assign_kind_follows_source AttrType.kInteger
      (Attribute.ctor AttrType.kFloat) (Attribute.ctor AttrType.kFloat)).1,
   (attribute_assign_kind_follows_source AttrType.kInteger
      (Attribute.ctor AttrType.kFloat) (Attribute.ctor AttrType.kFloat)).2.1,
   (attribute_assign_kind_follows_source AttrType.kInteger
      (Attribute.ctor AttrType.kFloat) (Attribute.ctor AttrType.kFloat)).2.2 rfl⟩

/-- C6: scalar and vector attribute copy construction and copy assignment
produce an attribute whose kind equals the source's kind and whose payload
(the scalar value, or the ordered vector) equals the source's payload; the
source operand is passed by value in this embedding, hence unchanged. -/
theorem attribute_copy_preserves_kind_and_payload (VT : Type)
    (t a : ScalarAttribute VT) (tv av : VectorAttribute VT) :
    (ScalarAttribute.copyCtor a).kind = a.kind ∧
    (ScalarAttribute.copyCtor a).value = a.value ∧
    (ScalarAttribute.assign t a).kind = a.kind ∧
    (ScalarAttribute.assign t a).value = a.value ∧
    (VectorAttribute.copyCtor av).kind = av.kind ∧
    (VectorAttribute.copyCtor av).vector = av.vector ∧
    (VectorAttribute.assign tv av).kind = av.kind ∧
    (VectorAttribute.assign tv av).vector = av.vector :=
  ⟨rfl, rfl, rfl, rfl, rfl, rfl, rfl, rfl⟩

/-- C7: one run of `UpdateCtablePass::runOnGraphs` invokes the polymorphic
`accept` exactly once on every node of the Compute Graph, in the graph's
iteration (insertion) order: the trace of accepted nodes is exactly the
graph's node sequence.  The pass itself never inspects a node's kind; the
dispatch on the concrete kind happens inside `accept`. -/
theorem updateCtablePass_accepts_each_node_in_order (σ : Type)
    (v : ComputeVisitor σ) (pCG : ComputeGraph) (s : σ) :
    (UpdateCtablePass.runOnGraphs v pCG s).1.2 = pCG.nodes := by
  unfold UpdateCtablePass.runOnGraphs
  exact acceptAll_trace v pCG.nodes s

/-- C8 counterexample: the claim says `UpdateCtablePass::runOnGraphs`
returns NoChange for runs that modified nothing, but the source returns
`Pass::kModuleChanged` unconditionally: on the empty Compute Graph, with a
visitor that never touches the backend state, the run accepts no node and
changes nothing, yet does not return `kModuleNoChanged`. -/
theorem updateCtablePass_reports_change_on_no_change_cex :
    (UpdateCtablePass.runOnGraphs idVisitor { nodes := [], values := [] } ()).1.1 = () ∧
    (UpdateCtablePass.runOnGraphs idVisitor { nodes := [], values := [] } ()).1.2 = [] ∧
    (UpdateCtablePass.runOnGraphs idVisitor { nodes := [], values := [] } ()).2
        = PassReturn.kModuleChanged ∧
    (UpdateCtablePass.runOnGraphs idVisitor { nodes := [], values := [] } ()).2
        ≠ PassReturn.kModuleNoChanged := by
  refine ⟨rfl, rfl, rfl, ?_⟩
  decide

/-- C8 amended: `UpdateCtablePass::runOnGraphs` does return a value of the
tri-state result type, but it is always `kModuleChanged` (GraphChanged),
for every graph, visitor and backend state — also for runs that modify
nothing. -/
theorem updateCtablePass_always_module_changed (σ : Type)
    (v : ComputeVisitor σ) (pCG : ComputeGraph) (s : σ) :
    (UpdateCtablePass.runOnGraphs v pCG s).2 = PassReturn.kModuleChanged :=
  rfl

/-- C1: lowering a single-node source graph whose node has kind "Abs", the
one input named "t0" and the one output named "t1" (both unique), against a
Compute Graph that holds no node yet and already holds float32 tensor
Values "t0" and "t1", yields a Compute Graph with exactly one node, of kind
Abs, ordered inputs exactly ["t0"], ordered outputs exactly ["t1"], zero
attributes, and the value table unchanged. -/
theorem absLower_single_node_end_to_end (g : ComputeGraph)
    (hnodes : g.nodes = [])
    (ht0 : g.getValue "t0" = some { name := "t0", elemType := ElemType.float32 })
    (ht1 : g.getValue "t1" = some { name := "t1", elemType := ElemType.float32 }) :
    ∃ g2,
      lowerSingleNode g
          { kind := "Abs",
            inputs := [{ m_UniqueName := "t0", m_HasUniqueName := true }],
            outputs := [{ m_UniqueName := "t1", m_HasUniqueName := true }] }
        = some g2 ∧
      g2.nodes = [{ kind := "Abs", inputs := ["t0"], outputs := ["t1"],
                    attrs := [] }] ∧
      g2.values = g.values := by
  refine ⟨{ g with nodes := g.nodes ++
      [{ kind := "Abs", inputs := ["t0"], outputs := ["t1"], attrs := [] }] },
    ?_, ?_, rfl⟩
  · rfl
  · simp [hnodes]

/-- Witness for C1 at the concrete two-value Compute Graph. -/
theorem absLower_single_node_end_to_end_witness :
    ∃ g2,
      lowerSingleNode
          { nodes := [],
            values := [{ name := "t0", elemType := ElemType.float32 },
                       { name := "t1", elemType := ElemType.float32 }] }
          { kind := "Abs",
            inputs := [{ m_UniqueName := "t0", m_HasUniqueName := true }],
            outputs := [{ m_UniqueName := "t1", m_HasUniqueName := true }] }
        = some g2 ∧
      g2.nodes = [{ kind := "Abs", inputs := ["t0"], outputs := ["t1"],
                    attrs := [] }] ∧
      g2.values = ComputeGraph.values
          { nodes := [],
            values := [{ name := "t0", elemType := ElemType.float32 },
                       { name := "t1", elemType := ElemType.float32 }] } :=
  absLower_single_node_end_to_end _ rfl rfl rfl

/-- C2: for a source node the rule claimed (isMe did not answer NotMe) and
a Compute Graph holding a Value for each declared input,
`AbsLower::activate` returns null exactly when the input count differs
from 1, the output count differs from 1, or some input or output lacks a
unique name; otherwise it returns a newly created Abs node, appended to
the graph's node list without touching the value table, whose input and
output references are the source node's unique names, each input name
resolving in the graph's value table. -/
theorem absLower_activate_null_iff (g : ComputeGraph) (n : XNode)
    (hme : AbsLower.isMe n ≠ kNotMe)
    (hv : ∀ xv ∈ n.inputs, (g.getValue xv.uniqueName).isSome = true) :
    ((AbsLower.activate g n).2 = none ↔
      n.inputs.length ≠ 1 ∨ n.outputs.length ≠ 1 ∨
        (∃ xv ∈ n.inputs, xv.has_unique_name = false) ∨
        (∃ xv ∈ n.outputs, xv.has_unique_name = false)) ∧
    (∀ op, (AbsLower.activate g n).2 = some op →
      op.kind = "Abs" ∧ op.attrs = [] ∧
      (AbsLower.activate g n).1.nodes = g.nodes ++ [op] ∧
      (AbsLower.activate g n).1.values = g.values ∧
      op.inputs = n.inputs.map XValue.uniqueName ∧
      op.outputs = n.outputs.map XValue.uniqueName ∧
      ∀ nm ∈ op.inputs, (g.getValue nm).isSome = true) := by
  unfold AbsLower.activate
  split_ifs with h1 h2 h3 h4
  · exact ⟨iff_of_true rfl (Or.inl h1), fun op hop => hop.elim⟩
  · exact ⟨iff_of_true rfl
      (Or.inr (Or.inr (Or.inl ((any_not_unique_iff n.inputs).mp h2)))),
      fun op hop => hop.elim⟩
  · exact ⟨iff_of_true rfl (Or.inr (Or.inl h3)),
      fun op hop => hop.elim⟩
  · exact ⟨iff_of_true rfl
      (Or.inr (Or.inr (Or.inr ((any_not_unique_iff n.outputs).mp h4)))),
      fun op hop => hop.elim⟩
  · constructor
    · apply iff_of_false not_false
      rintro (h | h | h | h)
      · exact h1 h
      · exact h3 h
      · exact h2 ((any_not_unique_iff n.inputs).mpr h)
      · exact h4 ((any_not_unique_iff n.outputs).mpr h)
    · intro op hop
      dsimp only at hop
      rw [Option.some.injEq] at hop
      subst hop
      refine ⟨rfl, rfl, rfl, rfl, rfl, rfl, ?_⟩
      intro nm hnm
      simp only [List.mem_map] at hnm
      obtain ⟨xv, hxv, rfl⟩ := hnm
      exact hv xv hxv

/-- Witness for C2 at a concrete graph holding the input Value "t0" and a
valid one-input one-output Abs source node. -/
theorem absLower_activate_null_iff_witness :
    ((AbsLower.activate
        { nodes := [], values := [{ name := "t0", elemType := ElemType.float32 }] }
        { kind := "Abs",
          inputs := [{ m_UniqueName := "t0", m_HasUniqueName := true }],
          outputs := [{ m_UniqueName := "t1", m_HasUniqueName := true }] }).2 = none ↔
      (XNode.inputs
          { kind := "Abs",
            inputs := [{ m_UniqueName := "t0", m_HasUniqueName := true }],
            outputs := [{ m_UniqueName := "t1", m_HasUniqueName := true }] }).length ≠ 1 ∨
      (XNode.outputs
          { kind := "Abs",
            inputs := [{ m_UniqueName := "t0", m_HasUniqueName := true }],
            outputs := [{ m_UniqueName := "t1", m_HasUniqueName := true }] }).length ≠ 1 ∨
      (∃ xv ∈ XNode.inputs
          { kind := "Abs",
            inputs := [{ m_UniqueName := "t0", m_HasUniqueName := true }],
            outputs := [{ m_UniqueName := "t1", m_HasUniqueName := true }] },
        xv.has_unique_name = false) ∨
      (∃ xv ∈ XNode.outputs
          { kind := "Abs",
            inputs := [{ m_UniqueName := "t0", m_HasUniqueName := true }],
            outputs := [{ m_UniqueName := "t1", m_HasUniqueName := true }] },
        xv.has_unique_name = false)) ∧
    (∀ op, (AbsLower.activate
        { nodes := [], values := [{ name := "t0", elemType := ElemType.float32 }] }
        { kind := "Abs",
          inputs := [{ m_UniqueName := "t0", m_HasUniqueName := true }],
          outputs := [{ m_UniqueName := "t1", m_HasUniqueName := true }] }).2 = some op →
      op.kind = "Abs" ∧ op.attrs = [] ∧
      (AbsLower.activate
        { nodes := [], values := [{ name := "t0", elemType := ElemType.float32 }] }
        { kind := "Abs",
          inputs := [{ m_UniqueName := "t0", m_HasUniqueName := true }],
          outputs := [{ m_UniqueName := "t1", m_HasUniqueName := true }] }).1.nodes
          = ComputeGraph.nodes
              { nodes := [],
                values := [{ name := "t0", elemType := ElemType.float32 }] } ++ [op] ∧
      (AbsLower.activate
        { nodes := [], values := [{ name := "t0", elemType := ElemType.float32 }] }
        { kind := "Abs",
          inputs := [{ m_UniqueName := "t0", m_HasUniqueName := true }],
          outputs := [{ m_UniqueName := "t1", m_HasUniqueName := true }] }).1.values
          = ComputeGraph.values
              { nodes := [],
                values := [{ name := "t0", elemType := ElemType.float32 }] } ∧
      op.inputs = (XNode.inputs
          { kind := "Abs",
            inputs := [{ m_UniqueName := "t0", m_HasUniqueName := true }],
            outputs := [{ m_UniqueName := "t1", m_HasUniqueName := true }] }).map
            XValue.uniqueName ∧
      op.outputs = (XNode.outputs
          { kind := "Abs",
            inputs := [{ m_UniqueName := "t0", m_HasUniqueName := true }],
            outputs := [{ m_UniqueName := "t1", m_HasUniqueName := true }] }).map
            XValue.uniqueName ∧
      ∀ nm ∈ op.inputs,
        (ComputeGraph.getValue
            { nodes := [], values := [{ name := "t0", elemType := ElemType.float32 }] }
            nm).isSome = true) :=
  absLower_activate_null_iff _ _ (by decide) (by decide)

/-- C3: whenever `AbsLower::activate` returns null, the Compute Graph's
node count and value count after the call equal their values before the
call: every failing return happens before any mutation. -/
theorem absLower_activate_null_atomic (g : ComputeGraph) (n : XNode)
    (h : (AbsLower.activate g n).2 = none) :
    (AbsLower.activate g n).1.nodes.length = g.nodes.length ∧
    (AbsLower.activate g n).1.values.length = g.values.length := by
  unfold AbsLower.activate at h ⊢
  split_ifs at h ⊢ with h1 h2 h3 h4
  · exact ⟨rfl, rfl⟩
  · exact ⟨rfl, rfl⟩
  · exact ⟨rfl, rfl⟩
  · exact ⟨rfl, rfl⟩

/-- Witness for C3 at a two-input source node, on which `activate` fails. -/
theorem absLower_activate_null_atomic_witness :
    (AbsLower.activate { nodes := [], values := [] }
        { kind := "Abs",
          inputs := [{ m_UniqueName := "a", m_HasUniqueName := true },
                     { m_UniqueName := "b", m_HasUniqueName := true }],
          outputs := [{ m_UniqueName := "c", m_HasUniqueName := true }] }).1.nodes.length
      = (ComputeGraph.nodes { nodes := [], values := [] }).length ∧
    (AbsLower.activate { nodes := [], values := [] }
        { kind := "Abs",
          inputs := [{ m_UniqueName := "a", m_HasUniqueName := true },
                     { m_UniqueName := "b", m_HasUniqueName := true }],
          outputs := [{ m_UniqueName := "c", m_HasUniqueName := true }] }).1.values.length
      = (ComputeGraph.values { nodes := [], values := [] }).length :=
  absLower_activate_null_atomic _ _ (by decide)

/-- C9: `Statistics::addCounter` returns false and leaves the store
unchanged when a "Counter" entry with that name already exists; otherwise
it creates the counter entry with value 0 and a matching description
entry, and returns true. -/
theorem statistics_addCounter_spec (st : StatStore) (pName pDesc : String) :
    (hasEntry st.counter pName = true →
      Statistics.addCounter st pName pDesc = (st, false)) ∧
    (hasEntry st.counter pName = false →
      (Statistics.addCounter st pName pDesc).2 = true ∧
      hasEntry (Statistics.addCounter st pName pDesc).1.counter pName = true ∧
      readEntry (Statistics.addCounter st pName pDesc).1.counter pName 0 = 0 ∧
      hasEntry (Statistics.addCounter st pName pDesc).1.counterDesc pName = true ∧
      readEntry (Statistics.addCounter st pName pDesc).1.counterDesc pName ""
        = pDesc) := by
  constructor
  · intro h
    unfold Statistics.addCounter
    rw [if_pos h]
  · intro h
    unfold Statistics.addCounter
    rw [if_neg (by simp [h])]
    exact ⟨rfl, hasEntry_writeEntry_self _ _ _,
      readEntry_writeEntry_self _ _ _ _,
      hasEntry_writeEntry_self _ _ _,
      readEntry_writeEntry_self _ _ _ _⟩

/-- Witness for C9: an existing counter "x" is rejected unchanged; a fresh
counter "y" is created at 0 with its description, returning true. -/
theorem statistics_addCounter_spec_witness :
    Statistics.addCounter { counter := [("x", 5)], counterDesc := [] } "x" "d"
      = ({ counter := [("x", 5)], counterDesc := [] }, false) ∧
    (Statistics.addCounter { counter := [], counterDesc := [] } "y" "d").2 = true ∧
    readEntry (Statistics.addCounter
        { counter := [], counterDesc := [] } "y" "d").1.counter "y" 0 = 0 ∧
    readEntry (Statistics.addCounter
        { counter := [], counterDesc := [] } "y" "d").1.counterDesc "y" "" = "d" :=
  ⟨(statistics_addCounter_spec { counter := [("x", 5)], counterDesc := [] }
      "x" "d").1 (by decide),
   ((statistics_addCounter_spec { counter := [], counterDesc := [] }
      "y" "d").2 (by decide)).1,
   ((statistics_addCounter_spec { counter := [], counterDesc := [] }
      "y" "d").2 (by decide)).2.2.1,
   ((statistics_addCounter_spec { counter := [], counterDesc := [] }
      "y" "d").2 (by decide)).2.2.2.2⟩

/-- C10: for a counter present in the store, `increaseCounter(name, n)`
followed by `decreaseCounter(name, n)` restores the counter's value; for a
name not present, both operations return false and leave the store
unchanged. -/
theorem statistics_increase_decrease_round_trip (st : StatStore)
    (pName : String) (n : Nat) :
    (hasEntry st.counter pName = true →
      readEntry (Statistics.decreaseCounter
          (Statistics.increaseCounter st pName n).1 pName n).1.counter pName 0
        = readEntry st.counter pName 0) ∧
    (hasEntry st.counter pName = false →
      Statistics.increaseCounter st pName n = (st, false) ∧
      Statistics.decreaseCounter st pName n = (st, false)) := by
  constructor
  · intro h
    unfold Statistics.increaseCounter
    rw [if_neg (by simp [h])]
    dsimp only
    unfold Statistics.decreaseCounter
    rw [if_neg (by simp [hasEntry_writeEntry_self])]
    dsimp only
    rw [readEntry_writeEntry_self]
    rw [readEntry_writeEntry_self]
    omega
  · intro h
    constructor
    · unfold Statistics.increaseCounter
      rw [if_pos (by simp [h])]
    · unfold Statistics.decreaseCounter
      rw [if_pos (by simp [h])]

/-- Witness for C10: counter "c" at 7 survives an increase and decrease by
3; a missing counter "z" is untouched by both operations. -/
theorem statistics_increase_decrease_round_trip_witness :
    readEntry (Statistics.decreaseCounter
        (Statistics.increaseCounter
          { counter := [("c", 7)], counterDesc := [] } "c" 3).1 "c" 3).1.counter
        "c" 0
      = readEntry (StatStore.counter
          { counter := [("c", 7)], counterDesc := [] }) "c" 0 ∧
    Statistics.increaseCounter { counter := [], counterDesc := [] } "z" 3
      = ({ counter := [], counterDesc := [] }, false) ∧
    Statistics.decreaseCounter { counter := [], counterDesc := [] } "z" 3
      = ({ counter := [], counterDesc := [] }, false) :=
  ⟨(statistics_increase_decrease_round_trip
      { counter := [("c", 7)], counterDesc := [] } "c" 3).1 (by decide),
   ((statistics_increase_decrease_round_trip
      { counter := [], counterDesc := [] } "z" 3).2 (by decide)).1,
   ((statistics_increase_decrease_round_trip
      { counter := [], counterDesc := [] } "z" 3).2 (by decide)).2⟩

end Onnc
